import Mathlib

/-!
Shallow embedding of `src/renderer/point_renderer.rs` (the batched point
renderer of kiss3d) and proofs about it.

The renderer batches points (position, color, size) into two channels and
submits them as one draw call per frame.  Positions and colors are
`Point3<f32>` values that the renderer never inspects, so they are embedded
as an arbitrary type `P`.  Sizes are `f32` values that are only stored and
compared, never computed with, so they are embedded as `ℚ`.

The two channels are `GPUVec` values.  `GPUVec` is repository code that is
not part of the sources given here; the specification (section 4.1,
"Attribute Channel") describes it as a growable in-memory sequence with
`append`, `clear` and `length` and no error conditions, so it is modelled
as a plain `List`.  Likewise the graphics context, the `verify!` error
check and the attribute binding are modelled from the specification
(sections 4.3 and 6) as an explicit trace of device calls together with a
failure oracle.
-/

/-- The three shader attribute slots resolved at construction
(`pos`, `color`, `size` fields of `PointRenderer`). -/
inductive Attrib where
  | pos : Attrib
  | color : Attrib
  | size : Attrib
deriving DecidableEq, Repr

/-- The two GPU-staged channels owned by the renderer
(`points` and `sizes` fields). -/
inductive Chan where
  | pointsChan : Chan
  | sizesChan : Chan
deriving DecidableEq, Repr

/-- Primitive kinds used in draw calls; the renderer only uses `Context::POINTS`. -/
inductive PrimKind where
  | points : PrimKind
deriving DecidableEq, Repr

/-- Modelled from the spec: one observable call to a collaborator (the
graphics context, a shader attribute, the shader program, or the camera).
The collaborators' code is not under the given sources; the spec (section 6)
lists their call surface, which these constructors mirror.
`bindSubBuffer a c strides offset` records `a.bind_sub_buffer(&mut c, strides, offset)`;
`pointSize s` records `ctxt.point_size(s)`;
`drawArrays k start count` records `ctxt.draw_arrays(k, start, count)`. -/
inductive DeviceCall where
  | useProgram : DeviceCall
  | enableAttr : Attrib → DeviceCall
  | cameraUpload : Nat → DeviceCall
  | bindSubBuffer : Attrib → Chan → Nat → Nat → DeviceCall
  | pointSize : ℚ → DeviceCall
  | drawArrays : PrimKind → Int → Int → DeviceCall
  | disableAttr : Attrib → DeviceCall
deriving DecidableEq, Repr

/-- The mutable state of `PointRenderer`: the interleaved position/color
channel `points`, the size channel `sizes`, and the stored default point
size `point_size`.  The shader and the resolved attribute/uniform handles
are immutable after construction and play no role in the batching logic,
so they are not part of the state. -/
structure PointRenderer (P : Type) where
  points : List P
  sizes : List ℚ
  point_size : ℚ
deriving DecidableEq, Repr

/-- `PointRenderer::new`: both channels start empty and the default point
size is `1.0` (`point_size: 1.0` in the source). -/
def PointRenderer.new (P : Type) : PointRenderer P :=
  { points := [], sizes := [], point_size := 1 }

/-- `needs_rendering`: `self.points.len() != 0`. -/
def PointRenderer.needs_rendering {P : Type} (r : PointRenderer P) : Bool :=
  r.points.length != 0

/-- `set_point_size`: `self.point_size = pt_size`. -/
def PointRenderer.set_point_size {P : Type} (r : PointRenderer P) (pt_size : ℚ) :
    PointRenderer P :=
  { r with point_size := pt_size }

/-- `draw_point`: pushes `pt` then `color` onto the interleaved channel and
pushes the stored default `self.point_size` onto the size channel.
The source loops over `data_mut().iter_mut()`, which the spec models as a
plain in-memory sequence (section 4.1: append always succeeds). -/
def PointRenderer.draw_point {P : Type} (r : PointRenderer P) (pt color : P) :
    PointRenderer P :=
  { r with points := r.points ++ [pt, color], sizes := r.sizes ++ [r.point_size] }

/-- `draw_point_with_size`: pushes `pt` then `color` onto the interleaved
channel and pushes the explicit `size` onto the size channel; the stored
default is untouched. -/
def PointRenderer.draw_point_with_size {P : Type} (r : PointRenderer P)
    (pt color : P) (size : ℚ) : PointRenderer P :=
  { r with points := r.points ++ [pt, color], sizes := r.sizes ++ [size] }

/-- The truncating Rust cast `as i32` applied to a `usize` value: reduce
modulo 2^32 and reinterpret the result as a two's-complement 32-bit
signed integer.  `render` applies it to `self.points.len() / 2` when
building the draw call, so channel lengths of 2^32 points or more wrap. -/
def toI32 (n : Nat) : Int :=
  if n % 2 ^ 32 < 2 ^ 31 then ((n % 2 ^ 32 : Nat) : Int)
  else ((n % 2 ^ 32 : Nat) : Int) - 2 ^ 32

/-- Result of one `render` call: the renderer state afterwards, the trace
of collaborator calls issued, and the first device call whose error check
fired (`none` on success). -/
structure RenderResult (P : Type) where
  state : PointRenderer P
  trace : List DeviceCall
  error : Option DeviceCall
deriving DecidableEq, Repr

/-- `Renderer::render` for `PointRenderer`, translated line by line.

If the batch is empty it returns immediately (source line 83).  Otherwise
it activates the shader, enables the three attributes, asks the camera to
upload the matrices, binds the interleaved channel to the color slot with
arguments `(1, 1)` and to the position slot with `(1, 0)`, binds the size
channel to the size slot with `(0, 0)`, sets the device point size from the
stored default `self.point_size`, draws `(self.points.len() / 2) as i32`
vertices of kind POINTS starting at 0 (a truncating cast, modelled by
`toI32`), disables the attributes, and clears both channels.

Modelled from the spec: device errors.  The error-checking macro and the
internals of `bind_sub_buffer` are repository code outside the given
sources; the spec (sections 4.3 and 6) says every graphics-context call
during bind/draw is checked and a reported error aborts the render call at
that point.  The oracle `fails` says which device calls report an error;
on the first failing checked call the session aborts with the state
unchanged and the error surfaced. -/
def render {P : Type} (r : PointRenderer P) (pass : Nat) (fails : DeviceCall → Bool) :
    RenderResult P :=
  if r.points.length = 0 then
    { state := r, trace := [], error := none }
  else
    let b1 : DeviceCall := .bindSubBuffer .color .pointsChan 1 1
    let b2 : DeviceCall := .bindSubBuffer .pos .pointsChan 1 0
    let b3 : DeviceCall := .bindSubBuffer .size .sizesChan 0 0
    let c1 : DeviceCall := .pointSize r.point_size
    let c2 : DeviceCall := .drawArrays .points 0 (toI32 (r.points.length / 2))
    let pre : List DeviceCall :=
      [.useProgram, .enableAttr .pos, .enableAttr .color, .enableAttr .size,
       .cameraUpload pass]
    if fails b1 then
      { state := r, trace := pre ++ [b1], error := some b1 }
    else if fails b2 then
      { state := r, trace := pre ++ [b1, b2], error := some b2 }
    else if fails b3 then
      { state := r, trace := pre ++ [b1, b2, b3], error := some b3 }
    else if fails c1 then
      { state := r, trace := pre ++ [b1, b2, b3, c1], error := some c1 }
    else if fails c2 then
      { state := r, trace := pre ++ [b1, b2, b3, c1, c2], error := some c2 }
    else
      { state := { r with points := [], sizes := [] },
        trace := pre ++ [b1, b2, b3, c1, c2,
          .disableAttr .pos, .disableAttr .color, .disableAttr .size],
        error := none }

/-- The full trace of a successful draw, for stating theorems about it. -/
def successTrace {P : Type} (r : PointRenderer P) (pass : Nat) : List DeviceCall :=
  [.useProgram, .enableAttr .pos, .enableAttr .color, .enableAttr .size,
   .cameraUpload pass,
   .bindSubBuffer .color .pointsChan 1 1,
   .bindSubBuffer .pos .pointsChan 1 0,
   .bindSubBuffer .size .sizesChan 0 0,
   .pointSize r.point_size,
   .drawArrays .points 0 (toI32 (r.points.length / 2)),
   .disableAttr .pos, .disableAttr .color, .disableAttr .size]

/-- One user-facing batching call, for reasoning about arbitrary call
sequences between two clears. -/
inductive BatchOp (P : Type) where
  | addPoint : P → P → BatchOp P
  | addPointWithSize : P → P → ℚ → BatchOp P
  | setPointSize : ℚ → BatchOp P
deriving DecidableEq

/-- Apply one batching call to the renderer state. -/
def applyOp {P : Type} (r : PointRenderer P) : BatchOp P → PointRenderer P
  | .addPoint pt c => r.draw_point pt c
  | .addPointWithSize pt c s => r.draw_point_with_size pt c s
  | .setPointSize s => r.set_point_size s

/-- Apply a sequence of batching calls in order. -/
def applyOps {P : Type} (r : PointRenderer P) (ops : List (BatchOp P)) :
    PointRenderer P :=
  ops.foldl applyOp r

/-- Number of add calls (either kind) in a sequence of batching calls. -/
def numAdds {P : Type} : List (BatchOp P) → Nat
  | [] => 0
  | .addPoint _ _ :: rest => numAdds rest + 1
  | .addPointWithSize _ _ _ :: rest => numAdds rest + 1
  | .setPointSize _ :: rest => numAdds rest

/-- The (position, color) pairs passed to the add calls, in call order. -/
def addedPairs {P : Type} : List (BatchOp P) → List (P × P)
  | [] => []
  | .addPoint pt c :: rest => (pt, c) :: addedPairs rest
  | .addPointWithSize pt c _ :: rest => (pt, c) :: addedPairs rest
  | .setPointSize _ :: rest => addedPairs rest

/-- Spec-side definition (named from the spec's words, for the refinement
claims about sizes): the size that should be recorded for each add call,
given the default in effect — the explicit size when one is passed,
otherwise the running default, which only `set_default_size` changes. -/
def specExpectedSizes {P : Type} (d : ℚ) : List (BatchOp P) → List ℚ
  | [] => []
  | .addPoint _ _ :: rest => d :: specExpectedSizes d rest
  | .addPointWithSize _ _ s :: rest => s :: specExpectedSizes d rest
  | .setPointSize s :: rest => specExpectedSizes s rest

/-- Spec-side definition: the default size in effect after a sequence of
calls — the last `set_default_size` argument, or the starting default if
there was none; add calls never change it. -/
def specDefaultAfter {P : Type} (d : ℚ) : List (BatchOp P) → ℚ
  | [] => d
  | .addPoint _ _ :: rest => specDefaultAfter d rest
  | .addPointWithSize _ _ _ :: rest => specDefaultAfter d rest
  | .setPointSize s :: rest => specDefaultAfter s rest

/-- True when the sequence contains no `set_point_size` call. -/
def noSetSize {P : Type} : List (BatchOp P) → Bool
  | [] => true
  | .addPoint _ _ :: rest => noSetSize rest
  | .addPointWithSize _ _ _ :: rest => noSetSize rest
  | .setPointSize _ :: _ => false

/-- The interleaved layout of a list of (position, color) pairs: position
then color for each pair, in order. -/
def interleavePairs {P : Type} : List (P × P) → List P
  | [] => []
  | (pt, c) :: rest => pt :: c :: interleavePairs rest

/-- Modelled from the spec: the element of a bound channel read for vertex
`k`.  `bind_sub_buffer` is repository code outside the given sources; per
the spec (section 6, sub-range binding given a stride and an offset, and
section 4.3's glosses "skip the interleaved color entry" and "densely
packed") its `strides` argument counts the elements skipped between two
consecutive reads, so vertex `k` reads element `k * (strides + 1) + offset`. -/
def boundIndex (strides offset k : Nat) : Nat :=
  k * (strides + 1) + offset

/-- Recognizer for draw calls in a trace. -/
def isDrawCall : DeviceCall → Bool
  | .drawArrays _ _ _ => true
  | _ => false

/-- Recognizer for buffer-binding calls in a trace. -/
def isBindCall : DeviceCall → Bool
  | .bindSubBuffer _ _ _ _ => true
  | _ => false

/-- Recognizer for device point-size calls in a trace. -/
def isPointSizeCall : DeviceCall → Bool
  | .pointSize _ => true
  | _ => false

/-! ## Helper lemmas about batching call sequences -/

theorem applyOps_cons {P : Type} (r : PointRenderer P) (op : BatchOp P)
    (ops : List (BatchOp P)) : applyOps r (op :: ops) = applyOps (applyOp r op) ops :=
  rfl

theorem applyOps_points {P : Type} (ops : List (BatchOp P)) :
    ∀ r : PointRenderer P,
      (applyOps r ops).points = r.points ++ interleavePairs (addedPairs ops) := by
  induction ops with
  | nil => intro r; simp [applyOps, addedPairs, interleavePairs]
  | cons op rest ih =>
    intro r
    rw [applyOps_cons, ih]
    cases op with
    | addPoint pt c =>
      simp [applyOp, PointRenderer.draw_point, addedPairs, interleavePairs]
    | addPointWithSize pt c s =>
      simp [applyOp, PointRenderer.draw_point_with_size, addedPairs, interleavePairs]
    | setPointSize s =>
      simp [applyOp, PointRenderer.set_point_size, addedPairs]

theorem applyOps_sizes {P : Type} (ops : List (BatchOp P)) :
    ∀ r : PointRenderer P,
      (applyOps r ops).sizes = r.sizes ++ specExpectedSizes r.point_size ops := by
  induction ops with
  | nil => intro r; simp [applyOps, specExpectedSizes]
  | cons op rest ih =>
    intro r
    rw [applyOps_cons, ih]
    cases op with
    | addPoint pt c =>
      simp [applyOp, PointRenderer.draw_point, specExpectedSizes]
    | addPointWithSize pt c s =>
      simp [applyOp, PointRenderer.draw_point_with_size, specExpectedSizes]
    | setPointSize s =>
      simp [applyOp, PointRenderer.set_point_size, specExpectedSizes]

theorem applyOps_point_size {P : Type} (ops : List (BatchOp P)) :
    ∀ r : PointRenderer P,
      (applyOps r ops).point_size = specDefaultAfter r.point_size ops := by
  induction ops with
  | nil => intro r; simp [applyOps, specDefaultAfter]
  | cons op rest ih =>
    intro r
    rw [applyOps_cons, ih]
    cases op with
    | addPoint pt c =>
      simp [applyOp, PointRenderer.draw_point, specDefaultAfter]
    | addPointWithSize pt c s =>
      simp [applyOp, PointRenderer.draw_point_with_size, specDefaultAfter]
    | setPointSize s =>
      simp [applyOp, PointRenderer.set_point_size, specDefaultAfter]

theorem interleavePairs_length {P : Type} (l : List (P × P)) :
    (interleavePairs l).length = 2 * l.length := by
  induction l with
  | nil => simp [interleavePairs]
  | cons pc rest ih =>
    obtain ⟨pt, c⟩ := pc
    simp [interleavePairs, ih]
    omega

theorem addedPairs_length {P : Type} (ops : List (BatchOp P)) :
    (addedPairs ops).length = numAdds ops := by
  induction ops with
  | nil => simp [addedPairs, numAdds]
  | cons op rest ih =>
    cases op <;> simp [addedPairs, numAdds, ih]

theorem specExpectedSizes_length {P : Type} (ops : List (BatchOp P)) :
    ∀ d : ℚ, (specExpectedSizes d ops).length = numAdds ops := by
  induction ops with
  | nil => intro d; simp [specExpectedSizes, numAdds]
  | cons op rest ih =>
    intro d
    cases op <;> simp [specExpectedSizes, numAdds, ih]

theorem interleavePairs_get {P : Type} (l : List (P × P)) :
    ∀ k : Nat, k < l.length →
      (interleavePairs l)[2 * k]? = (l[k]?).map Prod.fst ∧
      (interleavePairs l)[2 * k + 1]? = (l[k]?).map Prod.snd := by
  induction l with
  | nil => intro k hk; simp at hk
  | cons pc rest ih =>
    intro k hk
    obtain ⟨pt, c⟩ := pc
    cases k with
    | zero => simp [interleavePairs]
    | succ k =>
      have hk2 : k < rest.length := by simpa using hk
      have h1 : 2 * (k + 1) = 2 * k + 1 + 1 := by omega
      rw [h1]
      simpa [interleavePairs] using ih k hk2

theorem specExpectedSizes_get_addPoint {P : Type} (ops : List (BatchOp P)) :
    ∀ (k : Nat) (d : ℚ) (pt c : P), noSetSize ops = true →
      ops[k]? = some (.addPoint pt c) →
      (specExpectedSizes d ops)[numAdds (ops.take k)]? = some d := by
  induction ops with
  | nil => intro k d pt c _ hop; simp at hop
  | cons op rest ih =>
    intro k d pt c hns hop
    cases k with
    | zero =>
      simp at hop
      subst hop
      simp [specExpectedSizes, numAdds]
    | succ k =>
      cases op with
      | addPoint pt0 c0 =>
        have hns2 : noSetSize rest = true := by simpa [noSetSize] using hns
        have hop2 : rest[k]? = some (.addPoint pt c) := by simpa using hop
        simpa [specExpectedSizes, numAdds] using ih k d pt c hns2 hop2
      | addPointWithSize pt0 c0 s0 =>
        have hns2 : noSetSize rest = true := by simpa [noSetSize] using hns
        have hop2 : rest[k]? = some (.addPoint pt c) := by simpa using hop
        simpa [specExpectedSizes, numAdds] using ih k d pt c hns2 hop2
      | setPointSize s0 =>
        simp [noSetSize] at hns

theorem render_success_eq {P : Type} (r : PointRenderer P) (pass : Nat)
    (fails : DeviceCall → Bool) (hne : r.points.length ≠ 0)
    (hok : (render r pass fails).error = none) :
    render r pass fails =
      { state := { r with points := [], sizes := [] },
        trace := successTrace r pass, error := none } := by
  simp only [render, if_neg hne] at hok ⊢
  split_ifs at hok ⊢
  all_goals simp_all [successTrace]

theorem toI32_eq_of_lt (n : Nat) (h : n < 2 ^ 31) : toI32 n = (n : Int) := by
  have h32 : n < 2 ^ 32 := by omega
  unfold toI32
  rw [Nat.mod_eq_of_lt h32]
  rw [if_pos h]

theorem render_no_fail_eq {P : Type} (r : PointRenderer P) (pass : Nat)
    (hne : r.points.length ≠ 0) :
    render r pass (fun _ => false) =
      { state := { r with points := [], sizes := [] },
        trace := successTrace r pass, error := none } := by
  simp [render, if_neg hne, successTrace]

theorem successTrace_filter_draw {P : Type} (r : PointRenderer P) (pass : Nat) :
    (successTrace r pass).filter isDrawCall =
      [DeviceCall.drawArrays PrimKind.points 0 (toI32 (r.points.length / 2))] := by
  simp [successTrace, isDrawCall]

/-! ## Claim theorems -/

/-- C1: after a successful `render` call with at least one point batched
(so the draw actually happens), both the position/color channel and the
size channel have length 0, regardless of how many points were present
beforehand. -/
theorem render_clears_channels {P : Type} (r : PointRenderer P) (pass : Nat)
    (fails : DeviceCall → Bool) (hne : r.points.length ≠ 0)
    (hok : (render r pass fails).error = none) :
    (render r pass fails).state.points.length = 0 ∧
    (render r pass fails).state.sizes.length = 0 := by
  rw [render_success_eq r pass fails hne hok]
  exact ⟨rfl, rfl⟩

theorem render_clears_channels_witness :
    (render ((PointRenderer.new ℕ).draw_point 5 6) 0 (fun _ => false)).state.points.length = 0 ∧
    (render ((PointRenderer.new ℕ).draw_point 5 6) 0 (fun _ => false)).state.sizes.length = 0 :=
  render_clears_channels ((PointRenderer.new ℕ).draw_point 5 6) 0 (fun _ => false)
    (by decide) (by decide)

/-- C2: every sequence of `draw_point` / `draw_point_with_size` (and
`set_point_size`) calls starting from cleared channels keeps the
position/color channel length equal to twice the number of add calls
(hence even) and the size channel length equal to the number of add calls. -/
theorem channel_length_invariant {P : Type} (r : PointRenderer P)
    (hp : r.points = []) (hs : r.sizes = []) (ops : List (BatchOp P)) :
    (applyOps r ops).points.length = 2 * numAdds ops ∧
    (applyOps r ops).sizes.length = numAdds ops ∧
    (applyOps r ops).points.length % 2 = 0 := by
  have h1 := applyOps_points ops r
  have h2 := applyOps_sizes ops r
  rw [hp] at h1
  rw [hs] at h2
  refine ⟨?_, ?_, ?_⟩
  · rw [h1]; simp [interleavePairs_length, addedPairs_length]
  · rw [h2]; simp [specExpectedSizes_length]
  · rw [h1]; simp [interleavePairs_length, addedPairs_length]

theorem channel_length_invariant_witness :
    (applyOps (PointRenderer.new ℕ)
        [BatchOp.addPoint 0 0, BatchOp.setPointSize 4,
         BatchOp.addPointWithSize 1 1 2]).points.length =
      2 * numAdds [BatchOp.addPoint 0 0, BatchOp.setPointSize 4,
         BatchOp.addPointWithSize (1 : ℕ) 1 2] ∧
    (applyOps (PointRenderer.new ℕ)
        [BatchOp.addPoint 0 0, BatchOp.setPointSize 4,
         BatchOp.addPointWithSize 1 1 2]).sizes.length =
      numAdds [BatchOp.addPoint 0 0, BatchOp.setPointSize 4,
         BatchOp.addPointWithSize (1 : ℕ) 1 2] ∧
    (applyOps (PointRenderer.new ℕ)
        [BatchOp.addPoint 0 0, BatchOp.setPointSize 4,
         BatchOp.addPointWithSize 1 1 2]).points.length % 2 = 0 :=
  channel_length_invariant (PointRenderer.new ℕ) rfl rfl
    [BatchOp.addPoint 0 0, BatchOp.setPointSize 4, BatchOp.addPointWithSize 1 1 2]

/-- C3: starting from a cleared position/color channel, after any sequence
of batching calls holding N added points, index 2k of the position/color
channel is the position argument of the k-th add call and index 2k+1 is
its color argument, for all k < N. -/
theorem interleaving_invariant {P : Type} (r : PointRenderer P)
    (hp : r.points = []) (ops : List (BatchOp P)) (k : Nat)
    (hk : k < numAdds ops) :
    (applyOps r ops).points[2 * k]? = ((addedPairs ops)[k]?).map Prod.fst ∧
    (applyOps r ops).points[2 * k + 1]? = ((addedPairs ops)[k]?).map Prod.snd := by
  have hlen : k < (addedPairs ops).length := by rw [addedPairs_length]; exact hk
  have h := interleavePairs_get (addedPairs ops) k hlen
  rw [applyOps_points ops r, hp, List.nil_append]
  exact h

theorem interleaving_invariant_witness :
    (applyOps (PointRenderer.new ℕ)
        [BatchOp.addPoint 3 4, BatchOp.addPointWithSize 5 6 2]).points[2 * 1]? =
      ((addedPairs [BatchOp.addPoint 3 4,
          BatchOp.addPointWithSize (5 : ℕ) 6 2])[1]?).map Prod.fst ∧
    (applyOps (PointRenderer.new ℕ)
        [BatchOp.addPoint 3 4, BatchOp.addPointWithSize 5 6 2]).points[2 * 1 + 1]? =
      ((addedPairs [BatchOp.addPoint 3 4,
          BatchOp.addPointWithSize (5 : ℕ) 6 2])[1]?).map Prod.snd :=
  interleaving_invariant (PointRenderer.new ℕ) rfl
    [BatchOp.addPoint 3 4, BatchOp.addPointWithSize 5 6 2] 1 (by decide)

/-- C4: `render` on an empty batch returns immediately: no collaborator is
invoked (the trace is empty, so no shader activation, camera upload,
binding, point-size, draw or clear happens) and the renderer state is
unchanged. -/
theorem render_empty_batch_noop {P : Type} (r : PointRenderer P) (pass : Nat)
    (fails : DeviceCall → Bool) (h : r.points.length = 0) :
    render r pass fails = { state := r, trace := [], error := none } := by
  unfold render
  rw [if_pos h]

theorem render_empty_batch_noop_witness :
    render (PointRenderer.new ℕ) 0 (fun _ => false) =
      { state := PointRenderer.new ℕ, trace := [], error := none } :=
  render_empty_batch_noop (PointRenderer.new ℕ) 0 (fun _ => false) rfl

/-- C5: the size channel after any sequence of batching calls extends the
previous contents with, for each add call, the explicit size if one was
passed and otherwise the default in effect at that call (the running
default being changed only by `set_point_size`); add calls never change the
stored default. -/
theorem size_channel_semantics {P : Type} (r : PointRenderer P)
    (ops : List (BatchOp P)) :
    (applyOps r ops).sizes = r.sizes ++ specExpectedSizes r.point_size ops ∧
    (applyOps r ops).point_size = specDefaultAfter r.point_size ops :=
  ⟨applyOps_sizes ops r, applyOps_point_size ops r⟩

/-- C6 counterexample: the vertex count of the draw call is the truncating
cast `(self.points.len() / 2) as i32`, not the exact quotient.  On a batch
of 2^32 points (interleaved channel length 2^33) the source's cast wraps
to 0: the sole draw call carries vertex count 0 although the channel
length divided by 2 is 2^32 ≠ 0, so the claim's unbounded count is false. -/
theorem render_draw_count_truncates :
    (render (⟨List.replicate (2 ^ 33) (), List.replicate (2 ^ 32) 1, 1⟩ :
        PointRenderer Unit) 0 (fun _ => false)).trace.filter isDrawCall =
      [DeviceCall.drawArrays PrimKind.points 0 0] ∧
    (⟨List.replicate (2 ^ 33) (), List.replicate (2 ^ 32) 1, 1⟩ :
        PointRenderer Unit).points.length / 2 = 2 ^ 32 ∧
    ((2 ^ 32 : Nat) : Int) ≠ 0 := by
  have hlen : (⟨List.replicate (2 ^ 33) (), List.replicate (2 ^ 32) 1, 1⟩ :
      PointRenderer Unit).points.length = 2 ^ 33 := by
    rw [show (⟨List.replicate (2 ^ 33) (), List.replicate (2 ^ 32) 1, 1⟩ :
      PointRenderer Unit).points = List.replicate (2 ^ 33) () from rfl]
    rw [List.length_replicate]
  have hne : (⟨List.replicate (2 ^ 33) (), List.replicate (2 ^ 32) 1, 1⟩ :
      PointRenderer Unit).points.length ≠ 0 := by
    rw [hlen]; norm_num
  have hcount : toI32 ((⟨List.replicate (2 ^ 33) (), List.replicate (2 ^ 32) 1, 1⟩ :
      PointRenderer Unit).points.length / 2) = 0 := by
    rw [hlen]; norm_num [toI32]
  refine ⟨?_, by rw [hlen]; norm_num, by norm_num⟩
  rw [render_no_fail_eq _ 0 hne]
  simp only [successTrace_filter_draw, hcount]

/-- C6 (amended): for every non-empty batch holding fewer than 2^31 points
(so the source's `as i32` cast of the vertex count does not truncate), a
successful `render` issues exactly one draw call, of primitive kind
POINTS, with start index 0 and vertex count equal to the position/color
channel length divided by 2. -/
theorem render_single_draw_call {P : Type} (r : PointRenderer P) (pass : Nat)
    (fails : DeviceCall → Bool) (hne : r.points.length ≠ 0)
    (hsmall : r.points.length / 2 < 2 ^ 31)
    (hok : (render r pass fails).error = none) :
    (render r pass fails).trace.filter isDrawCall =
      [DeviceCall.drawArrays PrimKind.points 0
        ((r.points.length / 2 : Nat) : Int)] := by
  rw [render_success_eq r pass fails hne hok]
  simp [successTrace, isDrawCall]
  exact toI32_eq_of_lt (r.points.length / 2) hsmall

theorem render_single_draw_call_witness :
    (render ((PointRenderer.new ℕ).draw_point 1 2) 3 (fun _ => false)).trace.filter
        isDrawCall =
      [DeviceCall.drawArrays PrimKind.points 0
        ((((PointRenderer.new ℕ).draw_point 1 2).points.length / 2 : Nat) : Int)] :=
  render_single_draw_call ((PointRenderer.new ℕ).draw_point 1 2) 3 (fun _ => false)
    (by decide) (by decide) (by decide)

/-- C7 counterexample: on a renderer whose most recently appended size is 3
(appended by `draw_point_with_size`), a successful `render` issues the
device point-size call with 1 — the stored default — and never with 3, so
`render` does not set the device point size to the batch's last-used size. -/
theorem render_point_size_not_last_appended :
    ((PointRenderer.new ℕ).draw_point_with_size 7 8 3).sizes.getLast? = some 3 ∧
    (render ((PointRenderer.new ℕ).draw_point_with_size 7 8 3) 0
        (fun _ => false)).trace.filter isPointSizeCall = [DeviceCall.pointSize 1] ∧
    DeviceCall.pointSize 3 ∉
      (render ((PointRenderer.new ℕ).draw_point_with_size 7 8 3) 0
        (fun _ => false)).trace := by
  decide

/-- C7 (amended): for every non-empty batch, a successful `render` issues
exactly one device point-size call, carrying the renderer's stored default
size (the `set_point_size` value, initially 1.0) — not the last appended
size — and it is issued immediately before the draw call, no draw call
preceding it. -/
theorem render_sets_stored_default_size {P : Type} (r : PointRenderer P)
    (pass : Nat) (fails : DeviceCall → Bool) (hne : r.points.length ≠ 0)
    (hok : (render r pass fails).error = none) :
    (render r pass fails).trace.filter isPointSizeCall =
      [DeviceCall.pointSize r.point_size] ∧
    ∃ t1 t2 : List DeviceCall,
      (render r pass fails).trace =
        t1 ++ DeviceCall.pointSize r.point_size ::
          DeviceCall.drawArrays PrimKind.points 0
            (toI32 (r.points.length / 2)) :: t2 ∧
      ∀ c ∈ t1, isDrawCall c = false := by
  rw [render_success_eq r pass fails hne hok]
  constructor
  · simp [successTrace, isPointSizeCall]
  · refine ⟨[DeviceCall.useProgram, DeviceCall.enableAttr Attrib.pos,
      DeviceCall.enableAttr Attrib.color, DeviceCall.enableAttr Attrib.size,
      DeviceCall.cameraUpload pass,
      DeviceCall.bindSubBuffer Attrib.color Chan.pointsChan 1 1,
      DeviceCall.bindSubBuffer Attrib.pos Chan.pointsChan 1 0,
      DeviceCall.bindSubBuffer Attrib.size Chan.sizesChan 0 0],
      [DeviceCall.disableAttr Attrib.pos, DeviceCall.disableAttr Attrib.color,
       DeviceCall.disableAttr Attrib.size], ?_, ?_⟩
    · simp [successTrace]
    · intro c hc
      simp only [List.mem_cons, List.not_mem_nil, or_false] at hc
      rcases hc with h | h | h | h | h | h | h | h <;> subst h <;> rfl

theorem render_sets_stored_default_size_witness :
    (render ((PointRenderer.new ℕ).draw_point_with_size 9 9 7) 1
        (fun _ => false)).trace.filter isPointSizeCall =
      [DeviceCall.pointSize ((PointRenderer.new ℕ).draw_point_with_size 9 9 7).point_size] :=
  (render_sets_stored_default_size ((PointRenderer.new ℕ).draw_point_with_size 9 9 7)
    1 (fun _ => false) (by decide) (by decide)).1

/-- C8: for every non-empty batch, a successful `render` binds the
interleaved channel to the color slot and the position slot and the size
channel to the size slot, with binding arguments (strides 1, offset 0) for
position, (strides 1, offset 1) for color and (strides 0, offset 0) for
size; under the binding semantics `boundIndex` this means vertex k reads
its position at interleaved index 2k (element stride 2, offset 0), its
color at index 2k+1 (element stride 2, offset 1) and its size densely at
index k of the size channel. -/
theorem render_binding_layout {P : Type} (r : PointRenderer P) (pass : Nat)
    (fails : DeviceCall → Bool) (hne : r.points.length ≠ 0)
    (hok : (render r pass fails).error = none) :
    (render r pass fails).trace.filter isBindCall =
      [DeviceCall.bindSubBuffer Attrib.color Chan.pointsChan 1 1,
       DeviceCall.bindSubBuffer Attrib.pos Chan.pointsChan 1 0,
       DeviceCall.bindSubBuffer Attrib.size Chan.sizesChan 0 0] ∧
    (∀ k : Nat, boundIndex 1 0 k = 2 * k) ∧
    (∀ k : Nat, boundIndex 1 1 k = 2 * k + 1) ∧
    (∀ k : Nat, boundIndex 0 0 k = k) := by
  refine ⟨?_, ?_, ?_, ?_⟩
  · rw [render_success_eq r pass fails hne hok]
    simp [successTrace, isBindCall]
  · intro k; unfold boundIndex; omega
  · intro k; unfold boundIndex; omega
  · intro k; unfold boundIndex; omega

theorem render_binding_layout_witness :
    (render ((PointRenderer.new ℕ).draw_point 2 3) 2 (fun _ => false)).trace.filter
        isBindCall =
      [DeviceCall.bindSubBuffer Attrib.color Chan.pointsChan 1 1,
       DeviceCall.bindSubBuffer Attrib.pos Chan.pointsChan 1 0,
       DeviceCall.bindSubBuffer Attrib.size Chan.sizesChan 0 0] :=
  (render_binding_layout ((PointRenderer.new ℕ).draw_point 2 3) 2 (fun _ => false)
    (by decide) (by decide)).1

/-- C9: a device error during `render` is fatal and surfaced: whenever the
result carries an error, that device call did report a failure and the
renderer state — in particular the batch — is unchanged (not cleared); and
on a non-empty batch the render succeeds exactly when none of the checked
device calls (the three bindings, the point-size call and the draw call)
reports an error, so there is no retry and no fallback. -/
theorem render_device_error_fatal {P : Type} (r : PointRenderer P) (pass : Nat)
    (fails : DeviceCall → Bool) :
    (∀ c : DeviceCall, (render r pass fails).error = some c →
        fails c = true ∧ (render r pass fails).state = r) ∧
    (r.points.length ≠ 0 →
      ((render r pass fails).error = none ↔
        (fails (DeviceCall.bindSubBuffer Attrib.color Chan.pointsChan 1 1) = false ∧
         fails (DeviceCall.bindSubBuffer Attrib.pos Chan.pointsChan 1 0) = false ∧
         fails (DeviceCall.bindSubBuffer Attrib.size Chan.sizesChan 0 0) = false ∧
         fails (DeviceCall.pointSize r.point_size) = false ∧
         fails (DeviceCall.drawArrays PrimKind.points 0
           (toI32 (r.points.length / 2))) = false))) := by
  by_cases h0 : r.points.length = 0
  · simp [render, h0]
  · simp only [render, if_neg h0]
    split_ifs with h1 h2 h3 h4 h5
    all_goals constructor
    all_goals simp_all

theorem render_device_error_fatal_witness :
    isPointSizeCall (DeviceCall.pointSize 1) = true ∧
    (render ((PointRenderer.new ℕ).draw_point 4 4) 0 isPointSizeCall).state =
      (PointRenderer.new ℕ).draw_point 4 4 :=
  (render_device_error_fatal ((PointRenderer.new ℕ).draw_point 4 4) 0
    isPointSizeCall).1 (DeviceCall.pointSize 1) (by decide)

/-- C10: a newly constructed renderer has default point size 1; as long as
`set_point_size` is never called, every `draw_point` call appends the size
1 to the size channel (the k-th call in the sequence writes entry number
"adds before it" of the size channel, and that entry is 1). -/
theorem new_default_size_one {P : Type} (ops : List (BatchOp P)) (k : Nat)
    (pt c : P) (hns : noSetSize ops = true)
    (hop : ops[k]? = some (BatchOp.addPoint pt c)) :
    (PointRenderer.new P).point_size = 1 ∧
    (applyOps (PointRenderer.new P) ops).sizes[numAdds (ops.take k)]? = some 1 := by
  refine ⟨rfl, ?_⟩
  rw [applyOps_sizes ops (PointRenderer.new P)]
  simp only [PointRenderer.new, List.nil_append]
  exact specExpectedSizes_get_addPoint ops k 1 pt c hns hop

theorem new_default_size_one_witness :
    (PointRenderer.new ℕ).point_size = 1 ∧
    (applyOps (PointRenderer.new ℕ)
        [BatchOp.addPointWithSize 9 9 4, BatchOp.addPoint 0 1]).sizes[
      numAdds ([BatchOp.addPointWithSize (9 : ℕ) 9 4,
        BatchOp.addPoint 0 1].take 1)]? = some 1 :=
  new_default_size_one [BatchOp.addPointWithSize 9 9 4, BatchOp.addPoint 0 1] 1 0 1
    (by decide) (by decide)
